import Mathlib

/-!
Verification of the voltage-alert monitor (`src/alert.py`, class
`VoltageCheckerApp`).

The Python program samples a web page for a voltage reading and raises a
one-shot alert with a 0.5-unit hysteresis band.  We embed the relevant
parts shallowly:

* numeric values (Python `float`s) are modelled as rationals `ℚ`; every
  literal appearing in the program and the claims (0.5, 200.0, 199.5, ...)
  is exactly representable as a double, and the only arithmetic performed
  is comparison and the fixed `+ 0.5`, on which `ℚ` and IEEE doubles agree
  at these values;
* the boolean field `self.alerted` is kept as a `Bool` (`false` is the
  spec's `Armed` state, `true` is `Alerted`);
* exceptions become explicit error results.
-/

namespace VoltageAlert

/-- The spec's `AlertState` enumeration.  In the source it is the boolean
field `self.alerted`: `Armed` is `alerted = False`, `Alerted` is
`alerted = True`. -/
inductive AlertState where
  | Armed
  | Alerted
deriving DecidableEq, Repr

/-- The boolean `self.alerted` corresponding to an `AlertState`. -/
def AlertState.toAlerted : AlertState → Bool
  | .Armed => false
  | .Alerted => true

/-- The `AlertState` denoted by the boolean `self.alerted`. -/
def AlertState.ofAlerted : Bool → AlertState
  | false => .Armed
  | true => .Alerted

/-- The hysteresis update, lines 169-174 of `src/alert.py`, as a pure
function of `(threshold, voltage, alerted)`.  It mirrors the two
sequential `if` statements of the source:

    if voltage >= threshold + 0.5:
        self.alerted = False
    if voltage <= threshold and not self.alerted:
        self.alerted = True
        self.alert_signal.emit(voltage)

The result is the new value of `self.alerted` together with the payload of
the emitted alert signal, if any. -/
def hysteresisUpdate (threshold voltage : ℚ) (alerted : Bool) : Bool × Option ℚ :=
  let a1 : Bool := if threshold + 0.5 ≤ voltage then false else alerted
  if voltage ≤ threshold ∧ a1 = false then (true, some voltage) else (a1, none)

/-- The hysteresis update phrased on the spec's `AlertState` enumeration. -/
def alertStep (threshold voltage : ℚ) (s : AlertState) : AlertState × Option ℚ :=
  let r := hysteresisUpdate threshold voltage s.toAlerted
  (AlertState.ofAlerted r.1, r.2)

/-- Feeding a list of readings through the hysteresis update in order,
returning the state after each reading and the list of emitted alert
payloads (this is what the monitoring loop does with successive successful
readings). -/
def runReadings (threshold : ℚ) (s : AlertState) : List ℚ → List AlertState × List ℚ
  | [] => ([], [])
  | v :: vs =>
      let r := alertStep threshold v s
      let rest := runReadings threshold r.1 vs
      (r.1 :: rest.1, r.2.toList ++ rest.2)

/-! ## Python numeric-string parsing

`update_interval` and `update_threshold` call CPython's `int(str)` and
`float(str)`.  We model them on ASCII input: optional surrounding
whitespace, an optional sign, and a digit run (with CPython's grouping
underscores); `float` additionally allows a fractional part and an
exponent.  The `inf`/`nan` spellings and non-ASCII digits are outside the
model.  The result is an exact rational. -/

/-- Numeric value of a digit list (only ever applied to digit characters). -/
def digitsVal (cs : List Char) : Nat :=
  cs.foldl (fun a c => a * 10 + (c.toNat - 48)) 0

/-- The whitespace stripping `int(str)` and `float(str)` perform on their
argument (modelled for the common ASCII whitespace characters). -/
def pyStrip (cs : List Char) : List Char :=
  ((cs.dropWhile Char.isWhitespace).reverse.dropWhile Char.isWhitespace).reverse

/-- Continuation of a digit run after its first digit: further digits,
with single grouping underscores allowed only between digits. -/
def pyDigitRun : List Char → Nat → Option Nat
  | [], acc => some acc
  | '_' :: c :: cs, acc =>
      if c.isDigit then pyDigitRun cs (acc * 10 + (c.toNat - 48)) else none
  | ['_'], _ => none
  | c :: cs, acc =>
      if c.isDigit then pyDigitRun cs (acc * 10 + (c.toNat - 48)) else none

/-- A nonempty digit run: a digit followed by digits with optional single
grouping underscores between them. -/
def pyDigits? : List Char → Option Nat
  | [] => none
  | c :: cs => if c.isDigit then pyDigitRun cs (c.toNat - 48) else none

/-- CPython `int(str)`: strip whitespace, optional sign, digit run.
`none` models a raised `ValueError`. -/
def pyInt? (s : String) : Option Int :=
  match pyStrip s.data with
  | '+' :: cs => (pyDigits? cs).map (fun n => (n : Int))
  | '-' :: cs => (pyDigits? cs).map (fun n => -(n : Int))
  | cs => (pyDigits? cs).map (fun n => (n : Int))

/-- Mantissa of a CPython float literal: `digits`, `digits.`, `.digits` or
`digits.digits`. -/
def pyMantissa? (cs : List Char) : Option ℚ :=
  if cs.contains '.' then
    let ip := cs.takeWhile (fun c => c != '.')
    let fp := (cs.dropWhile (fun c => c != '.')).drop 1
    match ip, fp with
    | [], [] => none
    | [], _ =>
        (pyDigits? fp).map
          (fun f => (f : ℚ) / 10 ^ (fp.filter Char.isDigit).length)
    | _, [] => (pyDigits? ip).map (fun i => (i : ℚ))
    | _, _ =>
        match pyDigits? ip, pyDigits? fp with
        | some i, some f =>
            some ((i : ℚ) + (f : ℚ) / 10 ^ (fp.filter Char.isDigit).length)
        | _, _ => none
  else (pyDigits? cs).map (fun n => (n : ℚ))

/-- Signed exponent of a CPython float literal. -/
def pyExp? : List Char → Option Int
  | '+' :: cs => (pyDigits? cs).map (fun n => (n : Int))
  | '-' :: cs => (pyDigits? cs).map (fun n => -(n : Int))
  | cs => (pyDigits? cs).map (fun n => (n : Int))

/-- Scale a rational by a power of ten. -/
def scale10 (q : ℚ) (e : Int) : ℚ :=
  if 0 ≤ e then q * 10 ^ e.toNat else q / 10 ^ (-e).toNat

/-- Body of a CPython float literal after the sign: a mantissa with an
optional `e`/`E` exponent part. -/
def pyFloatBody? (cs : List Char) : Option ℚ :=
  let mant := cs.takeWhile (fun c => c != 'e' && c != 'E')
  match cs.dropWhile (fun c => c != 'e' && c != 'E') with
  | [] => pyMantissa? mant
  | _ :: ex =>
      match pyMantissa? mant, pyExp? ex with
      | some m, some e => some (scale10 m e)
      | _, _ => none

/-- CPython `float(str)` on finite decimal literals, at the character-list
level: strip whitespace, optional sign, mantissa, optional exponent.
`none` models a raised `ValueError`. -/
def pyFloatChars? (cs : List Char) : Option ℚ :=
  match pyStrip cs with
  | '+' :: l => pyFloatBody? l
  | '-' :: l => (pyFloatBody? l).map (fun q => -q)
  | l => pyFloatBody? l

/-- CPython `float(str)`. -/
def pyFloat? (s : String) : Option ℚ :=
  pyFloatChars? s.data

/-! ## Application state and configuration handlers -/

/-- The mutable fields of `VoltageCheckerApp` the claims concern: the
monitoring flag, the alert latch `self.alerted`, and the three
configuration fields guarded by the mutex. -/
structure AppState where
  monitoring : Bool
  alerted : Bool
  url : String
  interval : Int
  threshold : ℚ
deriving DecidableEq, Repr

/-- `update_interval` (src/alert.py lines 82-87): `self.interval =
int(new_interval)` under the mutex.  When `int` raises, the assignment
never happens, so the old interval is retained and the exception
propagates to the caller; the boolean records whether an error was
raised. -/
def update_interval (st : AppState) (inp : String) : AppState × Bool :=
  match pyInt? inp with
  | some n => ({ st with interval := n }, false)
  | none => (st, true)

/-- `update_threshold` (src/alert.py lines 89-94): `self.threshold =
float(new_threshold)` under the mutex, same error discipline as
`update_interval`. -/
def update_threshold (st : AppState) (inp : String) : AppState × Bool :=
  match pyFloat? inp with
  | some x => ({ st with threshold := x }, false)
  | none => (st, true)

/-- `start_monitoring` (src/alert.py lines 120-128): a no-op when already
monitoring, otherwise it sets the monitoring flag and spawns the worker
thread.  It does not write `self.alerted`. -/
def start_monitoring (st : AppState) : AppState :=
  if st.monitoring then st else { st with monitoring := true }

/-- `stop_monitoring` (src/alert.py lines 130-137): a no-op when already
stopped, otherwise it clears the monitoring flag.  It does not write
`self.alerted`. -/
def stop_monitoring (st : AppState) : AppState :=
  if st.monitoring = false then st else { st with monitoring := false }

/-- A state in which a monitoring session is running with the alert latch
set (an alert fired and has not recovered). -/
def latchedState : AppState :=
  { monitoring := true, alerted := true, url := "http://example",
    interval := 5, threshold := 200 }

/-- A freshly configured state: not monitoring, latch clear. -/
def initialState : AppState :=
  { monitoring := false, alerted := false, url := "http://example",
    interval := 5, threshold := 200 }

/-! ## Page model and extraction -/

/-- An element of the parsed page as the extraction code sees it: its tag
name, its style classes, and its contents, modelled as the list of text
fragments of its children.  The element's visible text is their
concatenation; BeautifulSoup's truthiness of a Tag is
`len(tag.contents) != 0`. -/
structure Elem where
  tag : String
  classes : List String
  contents : List String
deriving DecidableEq, Repr

/-- `div.text`: the concatenated text of the element. -/
def Elem.text (e : Elem) : String :=
  String.join e.contents

/-- Structural version of string-prefix testing, used so that concrete
instances kernel-evaluate. -/
def startsWithChars : List Char → List Char → Bool
  | [], _ => true
  | _ :: _, [] => false
  | c :: cs, d :: ds => c == d && startsWithChars cs ds

/-- `soup.find_all("div", "text-md")` (line 159 of src/alert.py): the
elements with tag `div` carrying the given style class, in document
order. -/
def find_all (tagName className : String) (doc : List Elem) : List Elem :=
  doc.filter (fun e => e.tag == tagName && e.classes.contains className)

/-- The label the extraction looks for (line 163). -/
def voltageLabel : String :=
  "Напруга:"

/-- The predicate of the generator expression on line 163:
`div.text.startswith("Напруга:")`. -/
def matchesLabel (e : Elem) : Bool :=
  startsWithChars voltageLabel.data e.text.data

/-- `voltage.text[9:-1]` (line 167): Python slicing by code points — drop
the first nine characters and the final one. -/
def sliceNineToLast (cs : List Char) : List Char :=
  (cs.drop 9).dropLast

/-- Modelled from the spec's words, for comparison with the code in claim
C9: strip exactly the label and one trailing unit character. -/
def specStripChars (cs : List Char) : List Char :=
  (cs.drop voltageLabel.data.length).dropLast

/-- How the extraction portion of the tick body (lines 157-167) ends. -/
inductive ExtractResult where
  | noDivs              -- no `text-md` div: `continue` on line 161
  | stopIteration       -- `next` with no default found no match (line 163)
  | guardEmpty          -- `if not voltage: continue` (lines 164-165)
  | numberFormat        -- `float(...)` raised ValueError (line 167)
  | reading (v : ℚ)     -- a voltage value was extracted
deriving DecidableEq, Repr

/-- Lines 157-167 of the tick body: collect the `text-md` divs, `continue`
if there are none, take the first whose text starts with the label
(StopIteration when none matches), `continue` if that element is falsy
(empty contents), then parse `text[9:-1]` as a float. -/
def extract (doc : List Elem) : ExtractResult :=
  if find_all "div" "text-md" doc = [] then .noDivs
  else
    match (find_all "div" "text-md" doc).find? matchesLabel with
    | none => .stopIteration
    | some v =>
        if v.contents.length = 0 then .guardEmpty
        else
          match pyFloatChars? (sliceNineToLast v.text.data) with
          | none => .numberFormat
          | some x => .reading x

/-! ## The monitoring tick and loop -/

/-- Outcome of `requests.get(url, timeout=5)` followed by
`raise_for_status()` (lines 150-155): a timeout (caught inline and
`continue`d), any other request failure or a non-2xx status (an exception
that reaches the tick's catch-all), or a body parsed into elements. -/
inductive FetchResult where
  | timeout
  | requestError
  | ok (doc : List Elem)

/-- How a tick of the `while` loop ended. -/
inductive TickExit where
  | continueTimeout     -- `continue` on line 155
  | continueNoDivs      -- `continue` on line 161
  | continueGuard       -- `continue` on line 165 (shown dead below)
  | caughtError         -- an exception reached the handler on line 176
  | completed           -- the hysteresis update on lines 169-174 ran
deriving DecidableEq, Repr

/-- The loop-relevant state a tick operates on: the monitoring flag and
the alert latch.  The tick body never assigns `self.monitoring`. -/
structure LoopState where
  monitoring : Bool
  alerted : Bool
deriving DecidableEq, Repr

/-- One iteration of the body of `monitor_voltage`'s `while` loop (lines
140-177) at a given threshold, with the fetch outcome supplied: the state
afterwards, the emitted alert payload if any, and how the tick ended.
Every non-completed path leaves the state untouched because the
hysteresis block on lines 169-174 holds the only state writes in the
body. -/
def monitorTick (threshold : ℚ) (s : LoopState) (fr : FetchResult) :
    LoopState × Option ℚ × TickExit :=
  match fr with
  | .timeout => (s, none, .continueTimeout)
  | .requestError => (s, none, .caughtError)
  | .ok doc =>
      match extract doc with
      | .noDivs => (s, none, .continueNoDivs)
      | .stopIteration => (s, none, .caughtError)
      | .guardEmpty => (s, none, .continueGuard)
      | .numberFormat => (s, none, .caughtError)
      | .reading v =>
          let r := hysteresisUpdate threshold v s.alerted
          ({ s with alerted := r.1 }, r.2, .completed)

/-- Successive ticks of the loop over a list of fetch outcomes, collecting
the emitted alert payloads. -/
def runLoop (threshold : ℚ) (s : LoopState) :
    List FetchResult → LoopState × List ℚ
  | [] => (s, [])
  | fr :: frs =>
      let r := monitorTick threshold s fr
      let rest := runLoop threshold r.1 frs
      (rest.1, r.2.1.toList ++ rest.2)

/-- A document whose only `text-md` div carries no voltage label. -/
def noLabelDoc : List Elem :=
  [⟨"div", ["text-md"], ["Current: 5A"]⟩]

/-- A document whose `text-md` div has the label immediately followed by
the number, with no separator character. -/
def tightLabelDoc : List Elem :=
  [⟨"div", ["text-md"], ["Напруга:220V"]⟩]

/-- A document shaped like the real page: label, separator space, value,
unit. -/
def pageDoc : List Elem :=
  [⟨"div", ["text-md"], ["Напруга: 221V"]⟩]

/-! ## Helper lemmas -/

/-- A reading at or above `threshold + 0.5` clears the latch and emits
nothing, from either prior value of `alerted`. -/
theorem hysteresisUpdate_recover (threshold voltage : ℚ) (a : Bool)
    (h : threshold + 0.5 ≤ voltage) :
    hysteresisUpdate threshold voltage a = (false, none) := by
  have hng : ¬ voltage ≤ threshold := by
    intro hc
    linarith
  simp [hysteresisUpdate, h, hng]

/-- A reading at or below the threshold with the latch clear sets the
latch and emits the reading. -/
theorem hysteresisUpdate_fire (threshold voltage : ℚ)
    (h : voltage ≤ threshold) :
    hysteresisUpdate threshold voltage false = (true, some voltage) := by
  have hnr : ¬ threshold + 0.5 ≤ voltage := by
    intro hc
    linarith
  simp [hysteresisUpdate, hnr, h]

/-- A reading at or below the threshold with the latch already set changes
nothing and emits nothing. -/
theorem hysteresisUpdate_hold (threshold voltage : ℚ)
    (h : voltage ≤ threshold) :
    hysteresisUpdate threshold voltage true = (true, none) := by
  have hnr : ¬ threshold + 0.5 ≤ voltage := by
    intro hc
    linarith
  simp [hysteresisUpdate, hnr, h]

/-- A reading strictly inside the band `(threshold, threshold + 0.5)`
changes nothing and emits nothing. -/
theorem hysteresisUpdate_band (threshold voltage : ℚ) (a : Bool)
    (h1 : threshold < voltage) (h2 : voltage < threshold + 0.5) :
    hysteresisUpdate threshold voltage a = (a, none) := by
  have hnr : ¬ threshold + 0.5 ≤ voltage := by
    intro hc
    linarith
  have hng : ¬ voltage ≤ threshold := by
    intro hc
    linarith
  simp [hysteresisUpdate, hnr, hng]

/-- An element matched by the label predicate has nonempty text, hence
nonempty contents: it is a truthy Tag. -/
theorem matched_contents_ne_nil (e : Elem) (h : matchesLabel e = true) :
    e.contents ≠ [] := by
  intro hc
  unfold matchesLabel at h
  have ht : e.text = "" := by
    simp [Elem.text, hc, String.join]
  rw [ht] at h
  exact absurd h (by decide)

/-- The `if not voltage` guard can never fire: extraction never ends in
`guardEmpty`. -/
theorem extract_ne_guardEmpty (d : List Elem) :
    extract d ≠ ExtractResult.guardEmpty := by
  intro h
  unfold extract at h
  by_cases hd : find_all "div" "text-md" d = []
  · rw [if_pos hd] at h
    exact ExtractResult.noConfusion h
  · rw [if_neg hd] at h
    cases hf : (find_all "div" "text-md" d).find? matchesLabel with
    | none =>
        simp only [hf] at h
        exact ExtractResult.noConfusion h
    | some v =>
        simp only [hf] at h
        have hm : matchesLabel v = true := List.find?_some hf
        have hlen : ¬ v.contents.length = 0 := by
          simpa [List.length_eq_zero] using matched_contents_ne_nil v hm
        rw [if_neg hlen] at h
        cases hp : pyFloatChars? (sliceNineToLast v.text.data) with
        | none =>
            simp only [hp] at h
            exact ExtractResult.noConfusion h
        | some x =>
            simp only [hp] at h
            exact ExtractResult.noConfusion h

/-! ## Claims -/

/-- C1: a reading at or below the threshold while the state is `Armed`
fires: the state becomes `Alerted` and exactly one alert event is emitted,
carrying the reading's value. -/
theorem fire_rule (threshold voltage : ℚ) (h : voltage ≤ threshold) :
    alertStep threshold voltage .Armed = (.Alerted, some voltage) := by
  simp [alertStep, AlertState.toAlerted,
    hysteresisUpdate_fire threshold voltage h, AlertState.ofAlerted]

/-- Witness for `fire_rule` at threshold 200, reading 199. -/
theorem fire_rule_witness :
    alertStep 200 199 .Armed = (.Alerted, some 199) :=
  fire_rule 200 199 (by norm_num)

/-- C2: a reading at or above `threshold + 0.5` results in `Armed` and
emits nothing, whatever the prior state. -/
theorem recovery_rule (threshold voltage : ℚ) (s : AlertState)
    (h : threshold + 0.5 ≤ voltage) :
    alertStep threshold voltage s = (.Armed, none) := by
  simp [alertStep, hysteresisUpdate_recover threshold voltage _ h,
    AlertState.ofAlerted]

/-- Witness for `recovery_rule` at threshold 200, reading 205, prior state
`Alerted`. -/
theorem recovery_rule_witness :
    alertStep 200 205 .Alerted = (.Armed, none) :=
  recovery_rule 200 205 .Alerted (by norm_num)

/-- C3: inside the open band `threshold < voltage < threshold + 0.5` the
state is left unchanged and nothing is emitted, in either prior state; and
a reading at or below the threshold while already `Alerted` keeps the
state `Alerted` and emits nothing (no repeat alert before recovery). -/
theorem no_transition_rule (threshold voltage : ℚ) (s : AlertState) :
    (threshold < voltage → voltage < threshold + 0.5 →
      alertStep threshold voltage s = (s, none)) ∧
    (voltage ≤ threshold →
      alertStep threshold voltage .Alerted = (.Alerted, none)) := by
  constructor
  · intro h1 h2
    cases s <;>
      simp [alertStep, AlertState.toAlerted,
        hysteresisUpdate_band threshold voltage _ h1 h2, AlertState.ofAlerted]
  · intro h
    simp [alertStep, AlertState.toAlerted,
      hysteresisUpdate_hold threshold voltage h, AlertState.ofAlerted]

/-- Witness for `no_transition_rule`: at threshold 200, the reading 200.25
leaves `Armed` unchanged with no event, and the reading 199 received while
`Alerted` stays `Alerted` with no event. -/
theorem no_transition_rule_witness :
    alertStep 200 200.25 .Armed = (.Armed, none) ∧
    alertStep 200 199 .Alerted = (.Alerted, none) :=
  ⟨(no_transition_rule 200 200.25 .Armed).1 (by norm_num) (by norm_num),
   (no_transition_rule 200 199 .Alerted).2 (by norm_num)⟩

/-- C4: with threshold 200.0, the readings 205.0, 199.0, 199.5, 200.5 in
order from `Armed` produce the state sequence
`Armed, Alerted, Alerted, Armed` and exactly one alert event, at 199.0. -/
theorem scenario_once :
    runReadings 200 .Armed [205, 199, 199.5, 200.5] =
      ([.Armed, .Alerted, .Alerted, .Armed], [199]) := by
  have s1 := hysteresisUpdate_recover 200 205 false (by norm_num)
  have s2 := hysteresisUpdate_fire 200 199 (by norm_num)
  have s3 := hysteresisUpdate_hold 200 199.5 (by norm_num)
  have s4 := hysteresisUpdate_recover 200 200.5 true (by norm_num)
  simp [runReadings, alertStep, AlertState.toAlerted, AlertState.ofAlerted,
    s1, s2, s3, s4]

/-- C5 counterexample: from a session stopped while the latch was set,
`stop()` followed by `start()` relaunches monitoring with `self.alerted`
still `True` — the new session does NOT begin in `Armed`. -/
theorem restart_not_reset :
    (start_monitoring (stop_monitoring latchedState)).alerted = true ∧
    AlertState.ofAlerted
        (start_monitoring (stop_monitoring latchedState)).alerted ≠
      AlertState.Armed := by
  decide

/-- C5 amended: `stop()` followed by `start()` relaunches monitoring but
leaves the alert latch exactly as it was when the previous session
stopped; neither operation writes `self.alerted`. -/
theorem restart_keeps_latch (st : AppState) :
    (start_monitoring (stop_monitoring st)).alerted = st.alerted ∧
    (start_monitoring (stop_monitoring st)).monitoring = true := by
  unfold start_monitoring stop_monitoring
  by_cases h : st.monitoring <;> simp [h]

/-- C6: no error within a tick (timeout, request error, missing elements,
missing label, malformed number) terminates the loop or changes the
state: a tick that does not complete returns the state unchanged with no
event, the remaining fetch outcomes are then processed exactly as if the
failed tick had not happened, and no tick ever changes the monitoring
flag — only `stop_monitoring` does. -/
theorem tick_errors_harmless (threshold : ℚ) (s : LoopState)
    (fr : FetchResult)
    (hfail : (monitorTick threshold s fr).2.2 ≠ TickExit.completed) :
    (monitorTick threshold s fr).1 = s ∧
    (monitorTick threshold s fr).2.1 = none ∧
    (∀ frs, runLoop threshold s (fr :: frs) = runLoop threshold s frs) ∧
    (∀ fr2, (monitorTick threshold s fr2).1.monitoring = s.monitoring) := by
  have key : (monitorTick threshold s fr).1 = s ∧
      (monitorTick threshold s fr).2.1 = none := by
    cases fr with
    | timeout => simp [monitorTick]
    | requestError => simp [monitorTick]
    | ok doc =>
        cases hx : extract doc <;> simp [monitorTick, hx] at hfail ⊢
  refine ⟨key.1, key.2, ?_, ?_⟩
  · intro frs
    simp [runLoop, key.1, key.2]
  · intro fr2
    cases fr2 with
    | timeout => simp [monitorTick]
    | requestError => simp [monitorTick]
    | ok doc => cases hx : extract doc <;> simp [monitorTick, hx]

/-- Witness for `tick_errors_harmless`: a timed-out fetch at threshold
200 from a running armed session. -/
theorem tick_errors_harmless_witness :
    (monitorTick 200 ⟨true, false⟩ FetchResult.timeout).1 = ⟨true, false⟩ ∧
    (monitorTick 200 ⟨true, false⟩ FetchResult.timeout).2.1 = none :=
  let h := tick_errors_harmless 200 ⟨true, false⟩ FetchResult.timeout (by decide)
  ⟨h.1, h.2.1⟩

/-- C7 counterexample: the input "-5" does not parse as a positive
integer, yet `update_interval` raises no error and stores the interval
-5 — positivity is never checked. -/
theorem update_interval_accepts_negative :
    update_interval initialState "-5" =
      ({ initialState with interval := -5 }, false) ∧
    ¬ (0 < (-5 : Int)) := by
  decide

/-- C7 amended: `update_interval` fails exactly when the input does not
parse as an integer (positivity is not required); on failure the previous
interval is retained unchanged and the error is surfaced to the caller,
and on success the parsed integer — positive or not — is stored. -/
theorem update_interval_spec (st : AppState) (inp : String) :
    (pyInt? inp = none → update_interval st inp = (st, true)) ∧
    (∀ n : Int, pyInt? inp = some n →
      update_interval st inp = ({ st with interval := n }, false)) := by
  constructor
  · intro h
    simp [update_interval, h]
  · intro n h
    simp [update_interval, h]

/-- Witness for `update_interval_spec`: "abc" fails and retains the
state; "7" succeeds and stores 7. -/
theorem update_interval_spec_witness :
    update_interval initialState "abc" = (initialState, true) ∧
    update_interval initialState "7" =
      ({ initialState with interval := 7 }, false) :=
  ⟨(update_interval_spec initialState "abc").1 (by decide),
   (update_interval_spec initialState "7").2 7 (by decide)⟩

/-- C8: `update_threshold` on the malformed input "abc": `float("abc")`
raises (the spec's `InvalidConfig`) before the assignment, so the
previously stored threshold — indeed the whole state — is unchanged and
the error surfaces to the caller. -/
theorem update_threshold_abc (st : AppState) :
    update_threshold st "abc" = (st, true) := by
  have h : pyFloat? "abc" = none := by decide
  simp [update_threshold, h]

/-- C9 counterexample: on an element whose text is exactly the
8-character label followed by "220V", the code extracts the reading 20 —
it drops nine leading characters, not just the label — whereas stripping
exactly the label and the unit character would give 220. -/
theorem strip_differs_from_label :
    extract tightLabelDoc = ExtractResult.reading 20 ∧
    pyFloatChars? (specStripChars ("Напруга:220V").data) = some 220 ∧
    (20 : ℚ) ≠ 220 := by
  refine ⟨by decide, by decide, by norm_num⟩

/-- C9 amended: `extract` scans the document for `div` elements with the
`text-md` style class; among them it takes the first whose text begins
with the label `"Напруга:"`, drops the first NINE characters of that
element's text — the 8-character label plus the single character after
it — together with the final unit character, and parses the remainder as
a float, which becomes the reading's value. -/
theorem extract_spec (doc : List Elem) (e : Elem) (x : ℚ)
    (hfind : (find_all "div" "text-md" doc).find? matchesLabel = some e)
    (hparse : pyFloatChars? ((e.text.data.drop 9).dropLast) = some x) :
    extract doc = ExtractResult.reading x ∧
    voltageLabel.data.length + 1 = 9 := by
  have hne : find_all "div" "text-md" doc ≠ [] := by
    intro hc
    rw [hc] at hfind
    simp at hfind
  have hm : matchesLabel e = true := List.find?_some hfind
  have hlen : ¬ e.contents.length = 0 := by
    simpa [List.length_eq_zero] using matched_contents_ne_nil e hm
  constructor
  · unfold extract
    rw [if_neg hne]
    simp only [hfind, if_neg hlen, sliceNineToLast, hparse]
  · decide

/-- Witness for `extract_spec` on a realistically shaped page: the text
"Напруга: 221V" yields the reading 221. -/
theorem extract_spec_witness :
    extract pageDoc = ExtractResult.reading 221 ∧
    voltageLabel.data.length + 1 = 9 :=
  extract_spec pageDoc ⟨"div", ["text-md"], ["Напруга: 221V"]⟩ 221
    (by decide) (by decide)

/-- C10: when `text-md` divs exist but none has text starting with the
label, `next(...)` with no default raises StopIteration, which lands in
the tick's catch-all handler: the cycle is abandoned with the state
untouched; and the `if not voltage: continue` guard is dead code — no
document makes extraction take it, because a matched element's text
starts with the nonempty label, so its contents cannot be empty. -/
theorem missing_label_dead_guard (threshold : ℚ) (s : LoopState)
    (doc : List Elem)
    (hne : find_all "div" "text-md" doc ≠ [])
    (hnone : (find_all "div" "text-md" doc).find? matchesLabel = none) :
    extract doc = ExtractResult.stopIteration ∧
    monitorTick threshold s (FetchResult.ok doc) =
      (s, none, TickExit.caughtError) ∧
    ∀ d : List Elem, extract d ≠ ExtractResult.guardEmpty := by
  have he : extract doc = ExtractResult.stopIteration := by
    unfold extract
    rw [if_neg hne, hnone]
  refine ⟨he, ?_, fun d => extract_ne_guardEmpty d⟩
  simp [monitorTick, he]

/-- Witness for `missing_label_dead_guard`: a page whose only `text-md`
div reads "Current: 5A". -/
theorem missing_label_dead_guard_witness :
    extract noLabelDoc = ExtractResult.stopIteration ∧
    monitorTick 200 ⟨true, false⟩ (FetchResult.ok noLabelDoc) =
      (⟨true, false⟩, none, TickExit.caughtError) :=
  let h := missing_label_dead_guard 200 ⟨true, false⟩ noLabelDoc
    (by decide) (by decide)
  ⟨h.1, h.2.1⟩

end VoltageAlert
